/-
Verification of the alert pipeline of `sky_and_sea_alert.py` (Sky and Sea
Alert v2.2.0).

The pipeline is shallowly embedded: provider JSON payloads become the
inductive `JVal`; Python semantics that the source relies on (truthiness,
`or`-chains, `str()`, `float()`, `.strip()`, `dict.get`) are modelled
explicitly; functions that can raise an uncaught exception return
`Except String`; the process-global suppression dict `_last_alert_ts`
becomes an explicit association list threaded through the functions, with
`time.time()` modelled by a clock stream `clock : Nat -> Rat` sampled once
per `_suppress` call.

Numbers are modelled by exact rationals.  Python's binary floats differ
from rationals only in rounding at the 15th+ digit, non-finite values
(`float("inf")`, `float("nan")` parse in Python but are outside the
rational model) and repr of non-decimal fractions; no property proved here
depends on those.  The trigonometric distance `_haversine_miles` is not
rational-representable, so the pipeline takes the distance function as an
explicit parameter `hav`; `_haversine_miles` itself is modelled over the
real numbers (`haversineMiles` below) for the Geo Math properties.
-/
import Mathlib

set_option maxHeartbeats 1000000
set_option linter.unnecessarySeqFocus false

/-- JSON values as Python manipulates them after `json.loads`: `null` is
Python `None`, numbers keep the int/float distinction, objects are Python
dicts (modelled as association lists, first binding wins). -/
inductive JVal where
  | null
  | bool (b : Bool)
  | int (n : ℤ)
  | float (q : ℚ)
  | str (s : String)
  | arr (xs : List JVal)
  | obj (kvs : List (String × JVal))

/-- Python truthiness (`bool(v)`), as used by the source's `or`-chains. -/
def truthy : JVal → Bool
  | .null => false
  | .bool b => b
  | .int n => n != 0
  | .float q => q != 0
  | .str s => s != ""
  | .arr xs => !xs.isEmpty
  | .obj kvs => !kvs.isEmpty

/-- Python `a or b` (value-returning, short-circuit on truthiness). -/
def pyOr (a b : JVal) : JVal := if truthy a then a else b

/-- `d.get(k)` on a value known to be a dict: the bound value, or `None`
when the key is absent. -/
def jget : JVal → String → JVal
  | .obj kvs, k => ((kvs.lookup k).getD .null)
  | _, _ => .null

/-- `v.get(k)` on an arbitrary value: raises `AttributeError` unless `v`
is a dict.  Used where the source calls `.get` on unvalidated data. -/
def jgetE : JVal → String → Except String JVal
  | .obj kvs, k => .ok ((kvs.lookup k).getD .null)
  | _, _ => .error "AttributeError: no attribute get"

/-- `v is None`. -/
def jIsNull : JVal → Bool
  | .null => true
  | _ => false

/-- Leading-whitespace removal on a character list. -/
def dropWs : List Char → List Char
  | [] => []
  | c :: cs => if c.isWhitespace then dropWs cs else c :: cs

/-- Python `s.strip()` (both ends), structurally recursive so concrete
witnesses reduce in the kernel.  `Char.isWhitespace` covers the ASCII
whitespace occurring here. -/
def strStrip (s : String) : String :=
  String.mk ((dropWs ((dropWs s.data).reverse)).reverse)

/-- Python `s.lower()` restricted to ASCII case mapping. -/
def strLower (s : String) : String :=
  String.mk (s.data.map Char.toLower)

/-- `v.strip()`: raises `AttributeError` unless `v` is a string. -/
def pyStrip : JVal → Except String String
  | .str s => .ok (strStrip s)
  | _ => .error "AttributeError: no attribute strip"

def digitsOnly (l : List Char) : Bool := l.all (·.isDigit)

/-- Decimal digit run to a natural number. -/
def digitsVal (l : List Char) : ℕ :=
  l.foldl (fun n c => 10 * n + (c.toNat - 48)) 0

/-- Split at the first `.`: integer-part characters, remaining
characters, and whether a point was seen. -/
def breakDot : List Char → List Char × List Char × Bool
  | [] => ([], [], false)
  | c :: cs =>
    if c = '.' then ([], cs, true)
    else
      let r := breakDot cs
      (c :: r.1, r.2.1, r.2.2)

/-- `float(s)` on a string, restricted to the rational model: optional
sign, plain decimal literal with at most one point, surrounding
whitespace.  Python additionally accepts exponents, underscores and the
non-finite literals `inf`/`nan`, which have no rational counterpart and
are not exercised by any claim. -/
def parseFloat? (s0 : String) : Option ℚ :=
  let l0 := dropWs ((dropWs s0.data).reverse) |>.reverse
  let sr : ℚ × List Char :=
    match l0 with
    | '-' :: cs => (-1, cs)
    | '+' :: cs => (1, cs)
    | cs => (1, cs)
  let r := breakDot sr.2
  let a := r.1
  let b := r.2.1
  if r.2.2 then
    if (!a.isEmpty || !b.isEmpty) && digitsOnly a && digitsOnly b then
      some (sr.1 * ((digitsVal a : ℚ) + (digitsVal b : ℚ) / (10 : ℚ) ^ b.length))
    else none
  else
    if !a.isEmpty && digitsOnly a then some (sr.1 * (digitsVal a : ℚ)) else none

/-- `float(v)`: succeeds on numbers, booleans and numeric strings, raises
(`none`) otherwise.  The source always catches that exception. -/
def pyFloat : JVal → Option ℚ
  | .int n => some (n : ℚ)
  | .float q => some q
  | .bool b => some (if b then 1 else 0)
  | .str s => parseFloat? s
  | _ => none

/-- Exact decimal rendering of a rational whose denominator divides a
power of ten (all floats occurring concretely here); used by `ratDecRepr`. -/
def insertPoint (digits : List Char) (k : ℕ) : String :=
  let padded := List.replicate (k + 1 - digits.length) '0' ++ digits
  String.mk (padded.take (padded.length - k)) ++ "." ++ String.mk (padded.drop (padded.length - k))

/-- `str(v)` for a Python float, in the rational model: exact decimal
expansion when one of at most 17 digits exists, else a fraction marker
(Python's shortest-roundtrip float repr is outside the model and is not
exercised by any claim). -/
def ratDecRepr (q : ℚ) : String :=
  match (List.range 18).find? (fun k => (q * (10 : ℚ) ^ k).den == 1) with
  | some 0 => toString q.num ++ ".0"
  | some k =>
      let m := (q * (10 : ℚ) ^ k).num
      (if m < 0 then "-" else "") ++ insertPoint (toString m.natAbs).data k
  | none => toString q.num ++ "/" ++ toString q.den

/-- `str(v)`.  Container reprs are abstracted (never exercised: the source
only applies `str` to altitude/speed/mmsi scalars). -/
def pyStr : JVal → String
  | .null => "None"
  | .bool b => if b then "True" else "False"
  | .int n => toString n
  | .float q => ratDecRepr q
  | .str s => s
  | .arr _ => "<list>"
  | .obj _ => "<dict>"

/-- `f"{x:.1f}"` in the rational model: one decimal digit, rounding half
away from zero (CPython rounds the underlying binary float half to even;
no claim exercises a tie). -/
def fmt1 (q : ℚ) : String :=
  let n : ℤ := Int.floor (q * 10 + 1 / 2)
  if n < 0 then "-" ++ toString ((-n) / 10) ++ "." ++ toString ((-n) % 10)
  else toString (n / 10) ++ "." ++ toString (n % 10)

/-! ## Suppression cache (`_last_alert_ts` and `_suppress`, lines 126-176) -/

abbrev SuppCache := List (String × ℚ)

def cacheGet (c : SuppCache) (k : String) : Option ℚ := c.lookup k

/-- `_last_alert_ts[key] = now` (one binding per key). -/
def cacheSet (c : SuppCache) (k : String) (t : ℚ) : SuppCache :=
  (k, t) :: c.filter (fun kv => kv.1 != k)

/-- `_suppress(key)` (source lines 167-176), with the module-global dict
and `time.time()` made explicit.  `minutes` is `SSA_SUPPRESS_MINUTES`.
Returns the suppression verdict and the updated cache. -/
def suppress (minutes : ℤ) (c : SuppCache) (key : String) (now : ℚ) : Bool × SuppCache :=
  let window : ℤ := max 0 minutes * 60
  if window ≤ 0 then (false, cacheSet c key now)
  else
    match cacheGet c key with
    | some last =>
        if now - last < (window : ℚ) then (true, c)
        else (false, cacheSet c key now)
    | none => (false, cacheSet c key now)

/-- The reference suppression definition exactly as claim C1 words it,
with the window taken as `minutes * 60` (no clamping). -/
def suppressSpec (minutes : ℤ) (c : SuppCache) (key : String) (now : ℚ) : Bool × SuppCache :=
  let w : ℤ := minutes * 60
  if w ≤ 0 then (false, cacheSet c key now)
  else
    match cacheGet c key with
    | none => (false, cacheSet c key now)
    | some s =>
        if now - s < (w : ℚ) then (true, c)
        else (false, cacheSet c key now)

/-- C1: The suppression check equals the reference definition: with
window w = suppression minutes times 60, if w ≤ 0 the call records the
time and returns false; if w > 0 and the key is absent it records and
returns false; if w > 0 and the key is present with last timestamp s and
t - s < w it returns true and leaves the cache unchanged; if w > 0 and
t - s ≥ w it records and returns false. -/
theorem suppress_matches_reference (m : ℤ) (c : SuppCache) (k : String) (t : ℚ) :
    suppress m c k t = suppressSpec m c k t := by
  unfold suppress suppressSpec
  rcases le_or_lt m 0 with h | h
  · have h0 : max 0 m = 0 := max_eq_left h
    have h1 : m * 60 ≤ 0 := by nlinarith
    simp [h0, h1]
  · have h0 : max 0 m = m := max_eq_right h.le
    have h1 : ¬ m * 60 ≤ 0 := by nlinarith
    simp only [h0, if_neg h1]
    cases cacheGet c k <;> simp

/-! ## Configuration and suppression state threading -/

/-- The configuration globals the pipeline reads (`SSA_LAT`, `SSA_LON`,
`SSA_AIRCRAFT_RADIUS_MI`, `SSA_VESSEL_RADIUS_MI`, `SSA_SUPPRESS_MINUTES`). -/
structure SSAConfig where
  lat : ℚ
  lon : ℚ
  aircraftRadius : ℚ
  vesselRadius : ℚ
  suppressMinutes : ℤ
deriving DecidableEq

/-- The suppression dict plus how many `_suppress` calls (hence
`time.time()` samples) have happened; the n-th call reads `clock n`. -/
structure SuppState where
  cache : SuppCache
  tick : ℕ
deriving DecidableEq

/-- One `_suppress(key)` call inside the pipeline, sampling the clock. -/
def stepSuppress (minutes : ℤ) (clock : ℕ → ℚ) (key : String) (st : SuppState) :
    Bool × SuppState :=
  let r := suppress minutes st.cache key (clock st.tick)
  (r.1, ⟨r.2, st.tick + 1⟩)

/-! ## Aircraft normalization (`_aircraft_alert_lines`, lines 367-408) -/

/-- Coordinate resolution (lines 370-375): top-level `lat`/`lon`, falling
back to a `lastPosition` object.  Raises when the record is not a dict or
when a truthy non-dict `lastPosition` is `.get`-ed. -/
def acLatLon (ac : JVal) : Except String (JVal × JVal) := do
  let lat ← jgetE ac "lat"
  let lon ← jgetE ac "lon"
  if jIsNull lat || jIsNull lon then
    let lp := pyOr (jget ac "lastPosition") (JVal.obj [])
    let lat2 ← if jIsNull lat then jgetE lp "lat" else .ok lat
    let lon2 ← if jIsNull lon then jgetE lp "lon" else .ok lon
    .ok (lat2, lon2)
  else
    .ok (lat, lon)

/-- Identifier and altitude resolution (lines 386-392): callsign and icao
`or`-chains (`.strip()` raises when the winning value is not a string),
plus the altitude display text. -/
def acIdent (ac : JVal) : Except String (String × String × String) := do
  let callsign ← pyStrip (pyOr (jget ac "flight") (pyOr (jget ac "call") (pyOr (jget ac "callsign") (JVal.str ""))))
  let icao ← pyStrip (pyOr (jget ac "hex") (pyOr (jget ac "icao") (pyOr (jget ac "icao24") (JVal.str ""))))
  let a0 := jget ac "alt_baro"
  let alt := if jIsNull a0 then jget ac "altitude" else a0
  let altFt := if jIsNull alt then "?" else pyStr alt
  .ok (callsign, icao, altFt)

/-- `label = callsign or icao or "UNKNOWN"` (line 394). -/
def acLabel (callsign icao : String) : String :=
  if callsign != "" then callsign else if icao != "" then icao else "UNKNOWN"

/-- One aircraft alert line (lines 399-407). -/
def aircraftLine (compact : Bool) (label : String) (dist : ℚ) (altFt : String) : String :=
  let d := fmt1 dist
  if compact then "✈️ " ++ label ++ " " ++ d ++ "mi " ++ altFt ++ "ft"
  else "✈️ Aircraft overhead\nID: " ++ label ++ "\nAltitude: " ++ altFt ++ " ft\nDistance: " ++ d ++ " mi"

/-- Dedupe and emit for one in-radius aircraft (lines 394-407). -/
def acTail (minutes : ℤ) (clock : ℕ → ℚ) (compact : Bool)
    (ids : String × String × String) (dist : ℚ) (st : SuppState) :
    Option String × SuppState :=
  let label := acLabel ids.1 ids.2.1
  let r := stepSuppress minutes clock ("air:" ++ label) st
  if r.1 then (none, r.2)
  else (some (aircraftLine compact label dist ids.2.2), r.2)

/-- One iteration of the `_aircraft_alert_lines` loop (lines 369-407).
`hav` stands for the call to `_haversine_miles` (float trigonometry,
abstracted as a distance oracle; the formula itself is `haversineMiles`
below).  `.ok none` is `continue`, `.error` an uncaught exception. -/
def aircraftStep (hav : ℚ → ℚ → ℚ → ℚ → ℚ) (cfg : SSAConfig) (clock : ℕ → ℚ)
    (compact : Bool) (ac : JVal) (st : SuppState) :
    Except String (Option String × SuppState) :=
  match acLatLon ac with
  | .error e => .error e
  | .ok (lat, lon) =>
    if jIsNull lat || jIsNull lon then .ok (none, st)
    else
      match pyFloat lat, pyFloat lon with
      | some la, some lo =>
          let dist := hav cfg.lat cfg.lon la lo
          if dist > cfg.aircraftRadius then .ok (none, st)
          else
            match acIdent ac with
            | .error e => .error e
            | .ok ids => .ok (acTail cfg.suppressMinutes clock compact ids dist st)
      | _, _ => .ok (none, st)

/-- `_aircraft_alert_lines` (lines 367-408): left-to-right fold; an
uncaught exception loses all accumulated lines but keeps the suppression
mutations made so far. -/
def aircraftAlertLines (hav : ℚ → ℚ → ℚ → ℚ → ℚ) (cfg : SSAConfig) (clock : ℕ → ℚ)
    (compact : Bool) : List JVal → SuppState → Except String (List String) × SuppState
  | [], st => (.ok [], st)
  | ac :: rest, st =>
    match aircraftStep hav cfg clock compact ac st with
    | .error e => (.error e, st)
    | .ok (none, st') => aircraftAlertLines hav cfg clock compact rest st'
    | .ok (some l, st') =>
      match aircraftAlertLines hav cfg clock compact rest st' with
      | (.ok ls, st'') => (.ok (l :: ls), st'')
      | (.error e, st'') => (.error e, st'')

/-! ## Vessel normalization (`_vessel_alert_lines`, lines 410-454) -/

/-- Name, mmsi and speed resolution (lines 413-419).  Only the name
`or`-chain can raise (`.strip()` on a truthy non-string, or `.get` on a
non-dict record). -/
def vesselHead (v : JVal) : Except String (String × String × String) := do
  let sn ← jgetE v "shipname"
  let name ← pyStrip (pyOr sn (pyOr (jget v "name") (pyOr (jget v "vessel") (pyOr (jget v "callsign") (JVal.str "UNKNOWN")))))
  let mmsi := strStrip (pyStr (pyOr (jget v "mmsi") (pyOr (jget v "MMSI") (JVal.str ""))))
  let s0 := jget v "speed"
  let speed := if jIsNull s0 then jget v "sog" else s0
  let spd := if jIsNull speed then "?" else pyStr speed
  .ok (name, mmsi, spd)

/-- Distance resolution (lines 421-435): provider `distance` field parsed
as float, else haversine from a coordinate pair (`lat`/`latitude`,
`lon`/`longitude`); `none` is the indeterminate distance. -/
def vesselDist (hav : ℚ → ℚ → ℚ → ℚ → ℚ) (cfg : SSAConfig) (v : JVal) : Option ℚ :=
  let d0 : Option ℚ :=
    let dv := jget v "distance"
    if jIsNull dv then none else pyFloat dv
  match d0 with
  | some d => some d
  | none =>
    let lat := let l := jget v "lat"; if jIsNull l then jget v "latitude" else l
    let lon := let l := jget v "lon"; if jIsNull l then jget v "longitude" else l
    if jIsNull lat || jIsNull lon then none
    else
      match pyFloat lat, pyFloat lon with
      | some la, some lo => some (hav cfg.lat cfg.lon la lo)
      | _, _ => none

/-- `label = name if name != "UNKNOWN" else (mmsi or "UNKNOWN")` (line 440). -/
def vesselLabel (name mmsi : String) : String :=
  if name != "UNKNOWN" then name else if mmsi != "" then mmsi else "UNKNOWN"

/-- One vessel alert line (lines 445-453). -/
def vesselLine (compact : Bool) (label dTxt spd : String) : String :=
  if compact then "🚢 " ++ label ++ " " ++ dTxt ++ "mi " ++ spd ++ "kn"
  else "🚢 Vessel nearby\nID: " ++ label ++ "\nSpeed: " ++ spd ++ " kn\nDistance: " ++ dTxt ++ " mi"

/-- Radius filter, dedupe and emit for one vessel (lines 437-453). -/
def vesselTail (minutes : ℤ) (clock : ℕ → ℚ) (compact : Bool) (dmi : Option ℚ)
    (vesselRadius : ℚ) (name mmsi spd : String) (st : SuppState) :
    Option String × SuppState :=
  let exceeds := match dmi with
    | some d => decide (d > vesselRadius)
    | none => false
  if exceeds then (none, st)
  else
    let label := vesselLabel name mmsi
    let r := stepSuppress minutes clock ("sea:" ++ label) st
    if r.1 then (none, r.2)
    else
      let dTxt := match dmi with | some d => fmt1 d | none => "?"
      (some (vesselLine compact label dTxt spd), r.2)

/-- One iteration of the `_vessel_alert_lines` loop (lines 412-453). -/
def vesselStep (hav : ℚ → ℚ → ℚ → ℚ → ℚ) (cfg : SSAConfig) (clock : ℕ → ℚ)
    (compact : Bool) (v : JVal) (st : SuppState) :
    Except String (Option String × SuppState) :=
  match vesselHead v with
  | .error e => .error e
  | .ok (name, mmsi, spd) =>
      .ok (vesselTail cfg.suppressMinutes clock compact (vesselDist hav cfg v)
            cfg.vesselRadius name mmsi spd st)

/-- `_vessel_alert_lines` (lines 410-454). -/
def vesselAlertLines (hav : ℚ → ℚ → ℚ → ℚ → ℚ) (cfg : SSAConfig) (clock : ℕ → ℚ)
    (compact : Bool) : List JVal → SuppState → Except String (List String) × SuppState
  | [], st => (.ok [], st)
  | v :: rest, st =>
    match vesselStep hav cfg clock compact v st with
    | .error e => (.error e, st)
    | .ok (none, st') => vesselAlertLines hav cfg clock compact rest st'
    | .ok (some l, st') =>
      match vesselAlertLines hav cfg clock compact rest st' with
      | (.ok ls, st'') => (.ok (l :: ls), st'')
      | (.error e, st'') => (.error e, st'')

/-! ## Envelope extraction (`_extract_aircraft_list`, lines 231-239) -/

def asList : JVal → Option (List JVal)
  | .arr xs => some xs
  | _ => none

/-- `_extract_aircraft_list(payload)` (lines 231-239). -/
def extractAircraftList (payload : JVal) : List JVal :=
  let fromDict : Option (List JVal) :=
    match payload with
    | .obj _ =>
        (match asList (jget payload "aircraft") with
         | some v => some v
         | none => asList (jget payload "ac"))
    | _ => none
  match fromDict with
  | some v => v
  | none =>
    match payload with
    | .arr xs => xs
    | _ => []

/-- Envelope extraction as claim C10 words it: a dict yields the value of
the first of `aircraft`, `ac` bound to a list; a bare list yields itself;
anything else yields the empty list. -/
def extractAircraftListSpec (payload : JVal) : List JVal :=
  match payload with
  | .obj _ =>
      (match asList (jget payload "aircraft") with
       | some v => v
       | none => (asList (jget payload "ac")).getD [])
  | .arr xs => xs
  | _ => []

/-! ## Demo and single-shot orchestration (`_demo` / `_single_shot`, lines 456-540) -/

/-- `_demo(mesh_compact)` (lines 456-468). -/
def demo (compact : Bool) : List String :=
  if compact then
    ["🟢 SSA demo OK",
     "✈️ DEMO123 6.1mi 9200ft",
     "🚢 DEMO VESSEL 2.3mi 12.4kn"]
  else
    ["🟢 Sky and Sea Alert demo started",
     "✈️ Aircraft overhead\nID: DEMO123\nAltitude: 9200 ft\nDistance: 6.1 mi",
     "🚢 Vessel nearby\nID: DEMO VESSEL\nSpeed: 12.4 kn\nDistance: 2.3 mi",
     "✅ Demo complete"]

/-- The four provider fetches as external collaborators: each either
returns the payload list or raises (lines 507, 515, 523, 531). -/
structure Fetches where
  aircraftLocal : Except String (List JVal)
  aircraftCloud : Except String (List JVal)
  vesselsLocal : Except String (List JVal)
  vesselsCloud : Except String (List JVal)

def wantsAircraftLocal (m : String) : Bool :=
  m == "aircraft-local" || m == "aircraft" || m == "sky_and_sea" || m == "sky_and_sea_local"

def wantsAircraftCloud (m : String) : Bool := m == "aircraft-cloud"

def wantsVesselsLocal (m : String) : Bool :=
  m == "vessels-local" || m == "vessels" || m == "sky_and_sea" || m == "sky_and_sea_local"

def wantsVesselsCloud (m : String) : Bool := m == "vessels-cloud"

def airLocalErr (compact : Bool) (e : String) : String :=
  if compact then "⚠️ Aircraft local fetch error" else "⚠️ Aircraft local error: " ++ e

def airCloudErr (compact : Bool) (e : String) : String :=
  if compact then "⚠️ Aircraft cloud fetch error" else "⚠️ Aircraft cloud error: " ++ e

def seaLocalErr (compact : Bool) (e : String) : String :=
  if compact then "⚠️ Vessel local fetch error" else "⚠️ Vessel local error: " ++ e

def seaCloudErr (compact : Bool) (e : String) : String :=
  if compact then "⚠️ Vessel cloud fetch error" else "⚠️ Vessel cloud error: " ++ e

/-- One `try: fetch; lines.extend(...) except: had_error; sentinel` block
of `_single_shot`: a fetch exception or an alert-lines exception both
land in the same `except` and append exactly one sentinel. -/
def runCategory (enabled : Bool) (fetch : Except String (List JVal))
    (process : List JVal → SuppState → Except String (List String) × SuppState)
    (errLine : String → String) (acc : List String × Bool × SuppState) :
    List String × Bool × SuppState :=
  if !enabled then acc
  else
    match fetch with
    | .error e => (acc.1 ++ [errLine e], true, acc.2.2)
    | .ok recs =>
      match process recs acc.2.2 with
      | (.ok ls, st') => (acc.1 ++ ls, acc.2.1, st')
      | (.error e, st') => (acc.1 ++ [errLine e], true, st')

/-- The four category blocks of `_single_shot` (lines 505-535), in source
order. -/
def runCategories (hav : ℚ → ℚ → ℚ → ℚ → ℚ) (cfg : SSAConfig) (clock : ℕ → ℚ)
    (compact : Bool) (f : Fetches) (m : String) (st : SuppState) :
    List String × Bool × SuppState :=
  let acc1 := runCategory (wantsAircraftLocal m) f.aircraftLocal
    (aircraftAlertLines hav cfg clock compact) (airLocalErr compact) ([], false, st)
  let acc2 := runCategory (wantsAircraftCloud m) f.aircraftCloud
    (aircraftAlertLines hav cfg clock compact) (airCloudErr compact) acc1
  let acc3 := runCategory (wantsVesselsLocal m) f.vesselsLocal
    (vesselAlertLines hav cfg clock compact) (seaLocalErr compact) acc2
  runCategory (wantsVesselsCloud m) f.vesselsCloud
    (vesselAlertLines hav cfg clock compact) (seaCloudErr compact) acc3

def noTargetsLine : String := "⏸ No aircraft or vessels in range"

/-- `_single_shot(mode, mesh_compact)` (lines 497-540), with fetch
outcomes supplied by the caller. -/
def singleShot (hav : ℚ → ℚ → ℚ → ℚ → ℚ) (cfg : SSAConfig) (clock : ℕ → ℚ)
    (mode : String) (compact : Bool) (f : Fetches) (st : SuppState) :
    List String × SuppState :=
  let m := strLower (strStrip mode)
  if m == "demo" then (demo compact, st)
  else
    let r := runCategories hav cfg clock compact f m st
    if r.1.isEmpty && !r.2.1 then ([noTargetsLine], r.2.2) else (r.1, r.2.2)

/-! ## Geo Math (`_haversine_miles`, lines 156-162), over the reals -/

noncomputable def radians (x : ℝ) : ℝ := x * Real.pi / 180

/-- `math.atan2(y, x)`, the two-argument arctangent with the C sign
conventions (only the `x > 0` quadrant is reached by the source). -/
noncomputable def atan2 (y x : ℝ) : ℝ :=
  if 0 < x then Real.arctan (y / x)
  else if x < 0 then
    (if 0 ≤ y then Real.arctan (y / x) + Real.pi else Real.arctan (y / x) - Real.pi)
  else
    (if 0 < y then Real.pi / 2 else if y < 0 then -(Real.pi / 2) else 0)

/-- The haversine intermediate `a` (line 161). -/
noncomputable def havA (lat1 lon1 lat2 lon2 : ℝ) : ℝ :=
  Real.sin (radians (lat2 - lat1) / 2) ^ 2 +
    Real.cos (radians lat1) * Real.cos (radians lat2) * Real.sin (radians (lon2 - lon1) / 2) ^ 2

/-- `_haversine_miles` (lines 156-162), Earth radius 3958.7613 miles. -/
noncomputable def haversineMiles (lat1 lon1 lat2 lon2 : ℝ) : ℝ :=
  3958.7613 *
    (2 * atan2 (Real.sqrt (havA lat1 lon1 lat2 lon2)) (Real.sqrt (1 - havA lat1 lon1 lat2 lon2)))

/-- C9: the great-circle distance is symmetric in its two coordinate
pairs, and the self-distance of any coordinate pair is zero. -/
theorem haversine_symm_self :
    (∀ lat1 lon1 lat2 lon2 : ℝ,
        haversineMiles lat1 lon1 lat2 lon2 = haversineMiles lat2 lon2 lat1 lon1)
    ∧ (∀ lat lon : ℝ, haversineMiles lat lon lat lon = 0) := by
  have hA : ∀ a b c d : ℝ, havA a b c d = havA c d a b := by
    intro a b c d
    unfold havA
    have k1 : radians (a - c) = -(radians (c - a)) := by unfold radians; ring
    have k2 : radians (b - d) = -(radians (d - b)) := by unfold radians; ring
    rw [k1, k2]
    rw [show -(radians (c - a)) / 2 = -(radians (c - a) / 2) by ring,
        show -(radians (d - b)) / 2 = -(radians (d - b) / 2) by ring,
        Real.sin_neg, Real.sin_neg]
    ring
  constructor
  · intro a b c d
    unfold haversineMiles
    rw [hA]
  · intro a b
    have h0 : havA a b a b = 0 := by
      unfold havA radians
      simp
    unfold haversineMiles
    rw [h0]
    norm_num [atan2]

/-- C10: aircraft envelope extraction is total and matches the claimed
case analysis (first of `aircraft`/`ac` bound to a list in a dict, a bare
list itself, else empty); a dict with neither key bound to a list yields
the empty record list, and an empty extraction feeds the "no targets in
range" path of the single shot rather than an error sentinel. -/
theorem extract_aircraft_envelope :
    (∀ p : JVal, extractAircraftList p = extractAircraftListSpec p)
    ∧ (∀ kvs, asList (jget (JVal.obj kvs) "aircraft") = none →
        asList (jget (JVal.obj kvs) "ac") = none →
        extractAircraftList (JVal.obj kvs) = [])
    ∧ (∀ hav cfg clock compact (f : Fetches) (st : SuppState) (p : JVal),
        extractAircraftList p = [] →
        f.aircraftLocal = .ok (extractAircraftList p) →
        singleShot hav cfg clock "aircraft-local" compact f st = ([noTargetsLine], st)) := by
  refine ⟨?_, ?_, ?_⟩
  · intro p
    cases p <;>
      simp only [extractAircraftList, extractAircraftListSpec] <;>
      try rfl
    case obj kvs =>
      cases h1 : asList (jget (JVal.obj kvs) "aircraft") <;>
        cases h2 : asList (jget (JVal.obj kvs) "ac") <;>
        simp [h1, h2]
  · intro kvs h1 h2
    simp [extractAircraftList, h1, h2]
  · intro hav cfg clock compact f st p hp hf
    obtain ⟨fa, fb, fc, fd⟩ := f
    rw [hp] at hf
    have hf' : fa = .ok [] := hf
    subst hf'
    rfl

theorem extract_aircraft_envelope_witness :
    extractAircraftList (JVal.obj [("foo", JVal.int 1)]) = []
    ∧ singleShot (fun _ _ _ _ => 0) ⟨0, 0, 10, 3, 15⟩ (fun _ => 0) "aircraft-local" true
        ⟨.ok (extractAircraftList (JVal.obj [("foo", JVal.int 1)])), .ok [], .ok [], .ok []⟩
        ⟨[], 0⟩ =
      ([noTargetsLine], ⟨[], 0⟩) := by
  refine ⟨by rfl, ?_⟩
  exact extract_aircraft_envelope.2.2 (fun _ _ _ _ => 0) ⟨0, 0, 10, 3, 15⟩ (fun _ => 0) true
    ⟨.ok (extractAircraftList (JVal.obj [("foo", JVal.int 1)])), .ok [], .ok [], .ok []⟩
    ⟨[], 0⟩ (JVal.obj [("foo", JVal.int 1)]) (by rfl) (by rfl)

/-- C2: the vessel radius filter drops a record exactly when its resolved
distance is known (provider field or coordinates) and strictly exceeds
the radius, touching nothing else; a record with indeterminate distance
always passes the radius filter, and its fate is then decided solely by
the suppression check.  The hypothesis is that field resolution succeeds
(a truthy non-string name candidate would instead raise, see C5). -/
theorem vessel_radius_filter_policy
    (hav : ℚ → ℚ → ℚ → ℚ → ℚ) (cfg : SSAConfig) (clock : ℕ → ℚ) (compact : Bool)
    (v : JVal) (st : SuppState) (name mmsi spd : String)
    (hh : vesselHead v = .ok (name, mmsi, spd)) :
    (∀ d, vesselDist hav cfg v = some d → d > cfg.vesselRadius →
        vesselStep hav cfg clock compact v st = .ok (none, st))
    ∧ (vesselDist hav cfg v = none →
        vesselStep hav cfg clock compact v st =
          .ok (let label := vesselLabel name mmsi
               let r := stepSuppress cfg.suppressMinutes clock ("sea:" ++ label) st
               if r.1 then (none, r.2)
               else (some (vesselLine compact label "?" spd), r.2))) := by
  constructor
  · intro d hd hgt
    simp [vesselStep, hh, vesselTail, hd, hgt]
  · intro hd
    simp [vesselStep, hh, vesselTail, hd]

def wHav : ℚ → ℚ → ℚ → ℚ → ℚ := fun _ _ _ _ => 0
def wCfg : SSAConfig := ⟨0, 0, 10, 3, 15⟩
def wClock : ℕ → ℚ := fun _ => 0
def wSt : SuppState := ⟨[], 0⟩
def vBoat : JVal := .obj [("shipname", .str "BOAT")]
def vFar : JVal := .obj [("shipname", .str "FAR"), ("distance", .float 5)]
def acGoodW : JVal := .obj [("lat", .float 0), ("lon", .float 0), ("flight", .str "UAL123"), ("alt_baro", .int 9500)]
def acBadW : JVal := .obj [("lat", .float 0), ("lon", .float 0), ("flight", .int 123)]
def acNCW : JVal := .obj [("lat", .str "abc"), ("lon", .float 0)]

theorem vessel_radius_filter_policy_witness :
    vesselHead vBoat = .ok ("BOAT", "", "?")
    ∧ vesselDist wHav wCfg vBoat = none
    ∧ vesselStep wHav wCfg wClock true vBoat wSt =
        .ok (some "🚢 BOAT ?mi ?kn", ⟨[("sea:BOAT", 0)], 1⟩)
    ∧ vesselDist wHav wCfg vFar = some 5
    ∧ vesselStep wHav wCfg wClock true vFar wSt = .ok (none, wSt) := by
  have hh : vesselHead vBoat = .ok ("BOAT", "", "?") := by
    simp +decide [vesselHead, jget, jgetE, jIsNull, pyOr, truthy, pyStrip, pyStr,
      strStrip, dropWs, vBoat, List.lookup, Except.bind, bind]
  have hh2 : vesselHead vFar = .ok ("FAR", "", "?") := by
    simp +decide [vesselHead, jget, jgetE, jIsNull, pyOr, truthy, pyStrip, pyStr,
      strStrip, dropWs, vFar, List.lookup, Except.bind, bind]
  have hd : vesselDist wHav wCfg vBoat = none := by
    simp +decide [vesselDist, jget, jIsNull, pyFloat, vBoat, List.lookup]
  have hd2 : vesselDist wHav wCfg vFar = some 5 := by
    simp +decide [vesselDist, jget, jIsNull, pyFloat, vFar, List.lookup]
  refine ⟨hh, hd, ?_, hd2, ?_⟩
  · have h := (vessel_radius_filter_policy wHav wCfg wClock true vBoat wSt
        "BOAT" "" "?" hh).2 hd
    rw [h]
    simp +decide [vesselLabel, vesselLine, stepSuppress, suppress, cacheGet, cacheSet,
      wCfg, wClock, wSt]
  · exact (vessel_radius_filter_policy wHav wCfg wClock true vFar wSt
        "FAR" "" "?" hh2).1 5 hd2 (by norm_num [wCfg])

/-- C3: for an aircraft record with resolvable numeric coordinates (and
resolvable identifiers, not currently suppressed), the radius filter
retains the record exactly when the computed distance is at most the
configured aircraft radius: equality is retained, any strictly larger
distance is dropped. -/
theorem aircraft_radius_filter_boundary
    (hav : ℚ → ℚ → ℚ → ℚ → ℚ) (cfg : SSAConfig) (clock : ℕ → ℚ) (compact : Bool)
    (ac : JVal) (st : SuppState) (lat lon : JVal) (la lo : ℚ)
    (ids : String × String × String)
    (hll : acLatLon ac = .ok (lat, lon))
    (hla : pyFloat lat = some la) (hlo : pyFloat lon = some lo)
    (hid : acIdent ac = .ok ids)
    (hsu : (stepSuppress cfg.suppressMinutes clock ("air:" ++ acLabel ids.1 ids.2.1) st).1 = false) :
    (∃ line st', aircraftStep hav cfg clock compact ac st = .ok (some line, st'))
      ↔ hav cfg.lat cfg.lon la lo ≤ cfg.aircraftRadius := by
  have hnl : jIsNull lat = false := by
    cases lat <;> simp_all [pyFloat, jIsNull]
  have hnlo : jIsNull lon = false := by
    cases lon <;> simp_all [pyFloat, jIsNull]
  constructor
  · rintro ⟨line, st', h⟩
    by_contra hgt
    push_neg at hgt
    simp [aircraftStep, hll, hnl, hnlo, hla, hlo, hgt] at h
  · intro hle
    refine ⟨aircraftLine compact (acLabel ids.1 ids.2.1) (hav cfg.lat cfg.lon la lo) ids.2.2,
      (stepSuppress cfg.suppressMinutes clock ("air:" ++ acLabel ids.1 ids.2.1) st).2, ?_⟩
    simp [aircraftStep, hll, hnl, hnlo, hla, hlo, not_lt.mpr hle, hid, acTail, hsu]

def acBoundary : JVal := .obj [("lat", .float 0), ("lon", .float 0), ("flight", .str "N1")]

theorem aircraft_radius_filter_boundary_witness :
    (∃ line st', aircraftStep (fun _ _ _ _ => 10) wCfg wClock true acBoundary wSt =
        .ok (some line, st'))
    ∧ ¬ (∃ line st', aircraftStep (fun _ _ _ _ => 10 + 1 / 100) wCfg wClock true acBoundary wSt =
        .ok (some line, st')) := by
  have hll : acLatLon acBoundary = .ok (.float 0, .float 0) := by
    simp +decide [acLatLon, jget, jgetE, jIsNull, pyOr, truthy, acBoundary, List.lookup,
      Except.bind, bind]
  have hid : acIdent acBoundary = .ok ("N1", "", "?") := by
    simp +decide [acIdent, jget, jIsNull, pyOr, truthy, pyStrip, pyStr, strStrip, dropWs,
      acBoundary, List.lookup, Except.bind, bind]
  have hsu : (stepSuppress wCfg.suppressMinutes wClock ("air:" ++ acLabel "N1" "") wSt).1 = false := by
    simp +decide [stepSuppress, suppress, cacheGet, cacheSet, wCfg, wClock, wSt, acLabel]
  constructor
  · exact (aircraft_radius_filter_boundary (fun _ _ _ _ => 10) wCfg wClock true acBoundary wSt
      (.float 0) (.float 0) 0 0 ("N1", "", "?") hll (by rfl) (by rfl) hid hsu).mpr
      (by norm_num [wCfg])
  · intro h
    have := (aircraft_radius_filter_boundary (fun _ _ _ _ => 10 + 1 / 100) wCfg wClock true
      acBoundary wSt (.float 0) (.float 0) 0 0 ("N1", "", "?") hll (by rfl) (by rfl) hid hsu).mp h
    norm_num [wCfg] at this

/-- C4: in every both-category single shot (any mode normalizing to
`sky_and_sea` or `sky_and_sea_local`), a fetch failure in either
category produces exactly one error sentinel for that category while the
other category is still fetched and processed from the same suppression
state: an aircraft fetch failure yields that sentinel followed by the
vessel lines, and a vessel fetch failure yields the aircraft lines
followed by that sentinel, with no further sentinel appended. -/
theorem single_shot_isolates_fetch_error
    (hav : ℚ → ℚ → ℚ → ℚ → ℚ) (cfg : SSAConfig) (clock : ℕ → ℚ) (compact : Bool)
    (mode : String) (f : Fetches) (st st' : SuppState) (e : String)
    (hm : strLower (strStrip mode) = "sky_and_sea" ∨
          strLower (strStrip mode) = "sky_and_sea_local") :
    (∀ vs ls, f.aircraftLocal = .error e → f.vesselsLocal = .ok vs →
        vesselAlertLines hav cfg clock compact vs st = (.ok ls, st') →
        singleShot hav cfg clock mode compact f st = (airLocalErr compact e :: ls, st'))
    ∧ (∀ as ls, f.vesselsLocal = .error e → f.aircraftLocal = .ok as →
        aircraftAlertLines hav cfg clock compact as st = (.ok ls, st') →
        singleShot hav cfg clock mode compact f st = (ls ++ [seaLocalErr compact e], st')) := by
  constructor
  · intro vs ls hA hV hL
    rcases hm with hm | hm <;>
      simp +decide [singleShot, hm, runCategories, runCategory, wantsAircraftLocal,
        wantsAircraftCloud, wantsVesselsLocal, wantsVesselsCloud, hA, hV, hL]
  · intro as ls hV hA hL
    rcases hm with hm | hm <;>
      simp +decide [singleShot, hm, runCategories, runCategory, wantsAircraftLocal,
        wantsAircraftCloud, wantsVesselsLocal, wantsVesselsCloud, hA, hV, hL]

def vQual : JVal := .obj [("shipname", .str "PEQUOD"), ("distance", .float 1)]

theorem single_shot_isolates_fetch_error_witness :
    vesselAlertLines wHav wCfg wClock true [vQual] wSt =
      (.ok ["🚢 PEQUOD 1.0mi ?kn"], ⟨[("sea:PEQUOD", 0)], 1⟩)
    ∧ singleShot wHav wCfg wClock "sky_and_sea" true
        ⟨.error "boom", .ok [], .ok [vQual], .ok []⟩ wSt =
      (["⚠️ Aircraft local fetch error", "🚢 PEQUOD 1.0mi ?kn"], ⟨[("sea:PEQUOD", 0)], 1⟩)
    ∧ aircraftAlertLines wHav wCfg wClock true [acGoodW] wSt =
      (.ok ["✈️ UAL123 0.0mi 9500ft"], ⟨[("air:UAL123", 0)], 1⟩)
    ∧ singleShot wHav wCfg wClock "sky_and_sea_local" true
        ⟨.ok [acGoodW], .ok [], .error "net down", .ok []⟩ wSt =
      (["✈️ UAL123 0.0mi 9500ft", "⚠️ Vessel local fetch error"], ⟨[("air:UAL123", 0)], 1⟩) := by
  have hL : vesselAlertLines wHav wCfg wClock true [vQual] wSt =
      (.ok ["🚢 PEQUOD 1.0mi ?kn"], ⟨[("sea:PEQUOD", 0)], 1⟩) := by
    simp +decide [vesselAlertLines, vesselStep, vesselHead, vesselDist, vesselTail,
      vesselLabel, vesselLine, stepSuppress, suppress, cacheGet, cacheSet, jget, jgetE,
      jIsNull, pyOr, truthy, pyStrip, pyFloat, pyStr, strStrip, dropWs, fmt1, wHav, wCfg,
      wClock, wSt, vQual, List.lookup, Except.bind, bind]
    norm_num
    rfl
  have hA2 : aircraftAlertLines wHav wCfg wClock true [acGoodW] wSt =
      (.ok ["✈️ UAL123 0.0mi 9500ft"], ⟨[("air:UAL123", 0)], 1⟩) := by
    simp +decide [aircraftAlertLines, aircraftStep, acLatLon, acIdent, acTail, acLabel,
      aircraftLine, stepSuppress, suppress, cacheGet, cacheSet, jget, jgetE, jIsNull,
      pyOr, truthy, pyStrip, pyFloat, pyStr, strStrip, dropWs, fmt1, wHav, wCfg, wClock,
      wSt, acGoodW, List.lookup, Except.bind, bind]
    norm_num
    rfl
  refine ⟨hL, ?_, hA2, ?_⟩
  · have h := (single_shot_isolates_fetch_error wHav wCfg wClock true "sky_and_sea"
      ⟨.error "boom", .ok [], .ok [vQual], .ok []⟩ wSt ⟨[("sea:PEQUOD", 0)], 1⟩ "boom"
      (Or.inl (by rfl))).1 [vQual] ["🚢 PEQUOD 1.0mi ?kn"] (by rfl) (by rfl) hL
    rw [h]
    rfl
  · have h := (single_shot_isolates_fetch_error wHav wCfg wClock true "sky_and_sea_local"
      ⟨.ok [acGoodW], .ok [], .error "net down", .ok []⟩ wSt ⟨[("air:UAL123", 0)], 1⟩
      "net down" (Or.inr (by rfl))).2 [acGoodW] ["✈️ UAL123 0.0mi 9500ft"] (by rfl) (by rfl) hA2
    rw [h]
    rfl

/-- C5 (amended): a record whose coordinates fail float parsing is
skipped silently and the rest of the batch is processed unchanged; but a
record whose unguarded field handling raises aborts the whole category
batch with no lines: a truthy non-string aircraft identifier candidate
(`acIdent` error, reached when the record is within radius), a non-dict
record or truthy non-dict `lastPosition` (`acLatLon` error), and a
truthy non-string vessel name candidate or non-dict vessel record
(`vesselHead` error) all do so; the orchestrator's category block then
converts the aborted batch into exactly one fetch-error sentinel with
the error flag set. -/
theorem malformed_record_handling_amended
    (hav : ℚ → ℚ → ℚ → ℚ → ℚ) (cfg : SSAConfig) (clock : ℕ → ℚ) (compact : Bool)
    (b : JVal) (rest : List JVal) (st : SuppState) :
    (∀ lat lon, acLatLon b = .ok (lat, lon) →
        jIsNull lat = false → jIsNull lon = false →
        (pyFloat lat = none ∨ pyFloat lon = none) →
        aircraftAlertLines hav cfg clock compact (b :: rest) st =
          aircraftAlertLines hav cfg clock compact rest st)
    ∧ (∀ lat lon la lo e, acLatLon b = .ok (lat, lon) →
        pyFloat lat = some la → pyFloat lon = some lo →
        hav cfg.lat cfg.lon la lo ≤ cfg.aircraftRadius →
        acIdent b = .error e →
        aircraftAlertLines hav cfg clock compact (b :: rest) st = (.error e, st))
    ∧ (∀ e, acLatLon b = .error e →
        aircraftAlertLines hav cfg clock compact (b :: rest) st = (.error e, st))
    ∧ (∀ e, vesselHead b = .error e →
        vesselAlertLines hav cfg clock compact (b :: rest) st = (.error e, st))
    ∧ (∀ (recs : List JVal)
        (process : List JVal → SuppState → Except String (List String) × SuppState)
        (errLine : String → String) (lines : List String) (hadErr : Bool) (e : String)
        (st' : SuppState),
        process recs st = (.error e, st') →
        runCategory true (.ok recs) process errLine (lines, hadErr, st) =
          (lines ++ [errLine e], true, st')) := by
  refine ⟨?_, ?_, ?_, ?_, ?_⟩
  · intro lat lon hll h1 h2 hbad
    have hstep : aircraftStep hav cfg clock compact b st = .ok (none, st) := by
      rcases hbad with hb | hb
      · simp [aircraftStep, hll, h1, h2, hb]
      · rcases hpf : pyFloat lat with _ | la <;>
          simp [aircraftStep, hll, h1, h2, hb, hpf]
    simp [aircraftAlertLines, hstep]
  · intro lat lon la lo e hll hla hlo hle hid
    have h1 : jIsNull lat = false := by cases lat <;> simp_all [pyFloat, jIsNull]
    have h2 : jIsNull lon = false := by cases lon <;> simp_all [pyFloat, jIsNull]
    have hstep : aircraftStep hav cfg clock compact b st = .error e := by
      simp [aircraftStep, hll, h1, h2, hla, hlo, not_lt.mpr hle, hid]
    simp [aircraftAlertLines, hstep]
  · intro e h
    have hstep : aircraftStep hav cfg clock compact b st = .error e := by
      simp [aircraftStep, h]
    simp [aircraftAlertLines, hstep]
  · intro e h
    have hstep : vesselStep hav cfg clock compact b st = .error e := by
      simp [vesselStep, h]
    simp [vesselAlertLines, hstep]
  · intro recs process errLine lines hadErr e st' hp
    simp [runCategory, hp]

/-- Counterexample to C5 as stated: appending a record whose `flight`
field is a (truthy) integer does not leave the other record's line
intact; the whole batch result becomes an error and the good record's
line is lost. -/
theorem malformed_record_aborts_batch_cex :
    aircraftAlertLines wHav wCfg wClock true [acGoodW, acBadW] wSt =
      (.error "AttributeError: no attribute strip", ⟨[("air:UAL123", 0)], 1⟩)
    ∧ aircraftAlertLines wHav wCfg wClock true [acGoodW] wSt =
      (.ok ["✈️ UAL123 0.0mi 9500ft"], ⟨[("air:UAL123", 0)], 1⟩) := by
  constructor
  · simp +decide [aircraftAlertLines, aircraftStep, acLatLon, acIdent, acTail, acLabel,
      aircraftLine, stepSuppress, suppress, cacheGet, cacheSet, jget, jgetE, jIsNull,
      pyOr, truthy, pyStrip, pyFloat, pyStr, strStrip, dropWs, fmt1, wHav, wCfg, wClock,
      wSt, acGoodW, acBadW, List.lookup, Except.bind, bind]
  · simp +decide [aircraftAlertLines, aircraftStep, acLatLon, acIdent, acTail, acLabel,
      aircraftLine, stepSuppress, suppress, cacheGet, cacheSet, jget, jgetE, jIsNull,
      pyOr, truthy, pyStrip, pyFloat, pyStr, strStrip, dropWs, fmt1, wHav, wCfg, wClock,
      wSt, acGoodW, List.lookup, Except.bind, bind]
    norm_num
    rfl

def acBadLPW : JVal := .obj [("lastPosition", .str "xyz")]
def vBadW : JVal := .obj [("shipname", .int 7)]

theorem malformed_record_handling_amended_witness :
    aircraftAlertLines wHav wCfg wClock true [acNCW, acGoodW] wSt =
      aircraftAlertLines wHav wCfg wClock true [acGoodW] wSt
    ∧ aircraftAlertLines wHav wCfg wClock true [acBadW, acGoodW] wSt =
      (.error "AttributeError: no attribute strip", wSt)
    ∧ aircraftAlertLines wHav wCfg wClock true [acBadLPW] wSt =
      (.error "AttributeError: no attribute get", wSt)
    ∧ vesselAlertLines wHav wCfg wClock true [vBadW] wSt =
      (.error "AttributeError: no attribute strip", wSt)
    ∧ runCategory true (.ok [acBadW]) (aircraftAlertLines wHav wCfg wClock true)
        (airLocalErr true) ([], false, wSt) =
      (["⚠️ Aircraft local fetch error"], true, wSt) := by
  have hll : acLatLon acNCW = .ok (.str "abc", .float 0) := by
    simp +decide [acLatLon, jget, jgetE, jIsNull, pyOr, truthy, acNCW, List.lookup,
      Except.bind, bind]
  have hll2 : acLatLon acBadW = .ok (.float 0, .float 0) := by
    simp +decide [acLatLon, jget, jgetE, jIsNull, pyOr, truthy, acBadW, List.lookup,
      Except.bind, bind]
  have hid2 : acIdent acBadW = .error "AttributeError: no attribute strip" := by
    simp +decide [acIdent, jget, jIsNull, pyOr, truthy, pyStrip, pyStr, strStrip, dropWs,
      acBadW, List.lookup, Except.bind, bind]
  have hlp : acLatLon acBadLPW = .error "AttributeError: no attribute get" := by
    simp +decide [acLatLon, jget, jgetE, jIsNull, pyOr, truthy, acBadLPW, List.lookup,
      Except.bind, bind]
  have hvh : vesselHead vBadW = .error "AttributeError: no attribute strip" := by
    simp +decide [vesselHead, jget, jgetE, jIsNull, pyOr, truthy, pyStrip, pyStr,
      strStrip, dropWs, vBadW, List.lookup, Except.bind, bind]
  have habort : aircraftAlertLines wHav wCfg wClock true [acBadW] wSt =
      (.error "AttributeError: no attribute strip", wSt) :=
    (malformed_record_handling_amended wHav wCfg wClock true acBadW [] wSt).2.1
      (.float 0) (.float 0) 0 0 "AttributeError: no attribute strip" hll2 (by rfl) (by rfl)
      (by norm_num [wHav, wCfg]) hid2
  refine ⟨?_, ?_, ?_, ?_, ?_⟩
  · exact (malformed_record_handling_amended wHav wCfg wClock true acNCW [acGoodW] wSt).1
      (.str "abc") (.float 0) hll (by rfl) (by rfl) (Or.inl (by rfl))
  · exact (malformed_record_handling_amended wHav wCfg wClock true acBadW [acGoodW] wSt).2.1
      (.float 0) (.float 0) 0 0 "AttributeError: no attribute strip" hll2 (by rfl) (by rfl)
      (by norm_num [wHav, wCfg]) hid2
  · exact (malformed_record_handling_amended wHav wCfg wClock true acBadLPW [] wSt).2.2.1
      "AttributeError: no attribute get" hlp
  · exact (malformed_record_handling_amended wHav wCfg wClock true vBadW [] wSt).2.2.2.1
      "AttributeError: no attribute strip" hvh
  · have h := (malformed_record_handling_amended wHav wCfg wClock true acBadW [] wSt).2.2.2.2
      [acBadW] (aircraftAlertLines wHav wCfg wClock true) (airLocalErr true) [] false
      "AttributeError: no attribute strip" wSt habort
    rw [h]
    rfl

/-- The resolved vessel identifier label (lines 413-414 and 440). -/
def resolvedVesselLabel (v : JVal) : Except String String :=
  match vesselHead v with
  | .error e => .error e
  | .ok (name, mmsi, _) => .ok (vesselLabel name mmsi)

def vWsName : JVal := .obj [("shipname", .str " "), ("name", .str "SANTA MARIA"), ("mmsi", .int 123456789)]

/-- Counterexample to C6 as stated: a whitespace-only `shipname` is
truthy, wins the `or`-chain and strips to the empty string, so the label
is `""` — neither the later non-empty `name` candidate nor the mmsi
fallback is used. -/
theorem vessel_label_whitespace_cex :
    resolvedVesselLabel vWsName = .ok ""
    ∧ (.ok "" : Except String String) ≠ .ok "SANTA MARIA"
    ∧ (.ok "" : Except String String) ≠ .ok "123456789" := by
  refine ⟨?_, by simp, by simp⟩
  simp +decide [resolvedVesselLabel, vesselHead, vesselLabel, jget, jgetE, jIsNull, pyOr,
    truthy, pyStrip, pyStr, strStrip, dropWs, vWsName, List.lookup, Except.bind, bind]

def optField (k : String) : Option String → List (String × JVal)
  | none => []
  | some s => [(k, JVal.str s)]

/-- A vessel payload with string-typed identity fields (`none` = key
absent), the shape quantified over by the amended C6. -/
def mkVessel (sn nm vs cs mm : Option String) : JVal :=
  .obj (optField "shipname" sn ++ optField "name" nm ++ optField "vessel" vs ++
        optField "callsign" cs ++ optField "mmsi" mm)

def firstNonemptyStr : List (Option String) → Option String
  | [] => none
  | none :: rest => firstNonemptyStr rest
  | some s :: rest => if s = "" then firstNonemptyStr rest else some s

/-- The amended C6 label rule: strip of the first non-empty-string
candidate (a whitespace-only candidate wins and strips to the empty
label); the mmsi fallback applies exactly when that strip equals
`"UNKNOWN"`, and itself falls back to `"UNKNOWN"` when the mmsi is
absent, empty or whitespace-only. -/
def amendedLabel (sn nm vs cs mm : Option String) : String :=
  let name := strStrip ((firstNonemptyStr [sn, nm, vs, cs]).getD "UNKNOWN")
  if name = "UNKNOWN" then
    let ms := strStrip ((firstNonemptyStr [mm]).getD "")
    if ms = "" then "UNKNOWN" else ms
  else name

/-- C6 (amended): on string-typed vessel payloads the resolved label is
exactly `amendedLabel`. -/
theorem vessel_label_amended (sn nm vs cs mm : Option String) :
    resolvedVesselLabel (mkVessel sn nm vs cs mm) = .ok (amendedLabel sn nm vs cs mm) := by
  rcases sn with _ | s1 <;> rcases nm with _ | s2 <;> rcases vs with _ | s3 <;>
    rcases cs with _ | s4 <;> rcases mm with _ | s5 <;>
      simp +decide [resolvedVesselLabel, vesselHead, mkVessel, optField, amendedLabel,
        firstNonemptyStr, jget, jgetE, pyOr, truthy, pyStrip, pyStr, vesselLabel,
        jIsNull, List.lookup, Except.bind, bind] <;>
      split_ifs <;> simp_all +decide [strStrip, dropWs]

/-- C7: a non-demo single shot returns exactly the "no targets in range"
sentinel when the categories produced no lines and no error, and exactly
the produced lines (no sentinel) otherwise. -/
theorem no_targets_sentinel
    (hav : ℚ → ℚ → ℚ → ℚ → ℚ) (cfg : SSAConfig) (clock : ℕ → ℚ) (mode : String)
    (compact : Bool) (f : Fetches) (st : SuppState)
    (hm : strLower (strStrip mode) ≠ "demo") :
    (∀ st', runCategories hav cfg clock compact f (strLower (strStrip mode)) st =
        ([], false, st') →
      singleShot hav cfg clock mode compact f st = ([noTargetsLine], st'))
    ∧ (∀ ls b st', runCategories hav cfg clock compact f (strLower (strStrip mode)) st =
        (ls, b, st') → ls ≠ [] ∨ b = true →
      singleShot hav cfg clock mode compact f st = (ls, st')) := by
  have hm' : (strLower (strStrip mode) == "demo") = false := by
    simpa using hm
  constructor
  · intro st' hr
    simp [singleShot, hm', hr]
  · rintro ls b st' hr (h | h)
    · cases ls with
      | nil => exact absurd rfl h
      | cons x xs => simp [singleShot, hm', hr]
    · subst h
      simp [singleShot, hm', hr]

theorem no_targets_sentinel_witness :
    runCategories wHav wCfg wClock true ⟨.ok [], .ok [], .ok [], .ok []⟩
        (strLower (strStrip "aircraft-local")) wSt = ([], false, wSt)
    ∧ singleShot wHav wCfg wClock "aircraft-local" true ⟨.ok [], .ok [], .ok [], .ok []⟩ wSt =
        (["⏸ No aircraft or vessels in range"], wSt) := by
  refine ⟨by rfl, ?_⟩
  have h := (no_targets_sentinel wHav wCfg wClock "aircraft-local" true
    ⟨.ok [], .ok [], .ok [], .ok []⟩ wSt (by decide)).1 wSt (by rfl)
  simpa [noTargetsLine] using h

/-- C8: a demo-mode single shot returns a fixed literal line list per
rendering flag, independent of configuration, distance oracle, clock and
fetch outcomes, and returns the suppression state exactly unchanged. -/
theorem demo_mode_fixed_output
    (hav : ℚ → ℚ → ℚ → ℚ → ℚ) (cfg : SSAConfig) (clock : ℕ → ℚ) (compact : Bool)
    (f : Fetches) (st : SuppState) :
    singleShot hav cfg clock "demo" compact f st =
      ((if compact then
          ["🟢 SSA demo OK",
           "✈️ DEMO123 6.1mi 9200ft",
           "🚢 DEMO VESSEL 2.3mi 12.4kn"]
        else
          ["🟢 Sky and Sea Alert demo started",
           "✈️ Aircraft overhead\nID: DEMO123\nAltitude: 9200 ft\nDistance: 6.1 mi",
           "🚢 Vessel nearby\nID: DEMO VESSEL\nSpeed: 12.4 kn\nDistance: 2.3 mi",
           "✅ Demo complete"]), st) := by
  rfl
